import Mathlib

/-
Verification of the tool-calling relay in `src/app/api/chat/route.ts`
(the repository's chat endpoint).  The file contains several concatenated
variants of the route; following the repository's own documentation the
later variant (route.ts lines 329-527, which validates the request body and
loops over all tool calls) is the canonical relay, and its
`searchWithFirecrawl` (route.ts lines 265-327) is the canonical
Content-Retrieval Client.  External collaborators (the OpenAI completion
service, the Firecrawl retrieval service, `JSON.parse`, `req.json()`) are
modelled as oracles supplied in a `World`; the relay itself is embedded as
a pure function from the environment and the oracles to the HTTP response
together with the ordered trace of outbound network calls it issues.
-/

namespace FirecrawlAgent

/-- JSON values, as produced by `req.json()` and `JSON.parse`.  Numbers are
modelled as integers (the relay only ever inspects the integral `limit`
argument numerically). -/
inductive Json where
  | null : Json
  | bool : Bool → Json
  | num : Int → Json
  | str : String → Json
  | arr : List Json → Json
  | obj : List (String × Json) → Json

/-- Property access `v.k` on a JSON value: a field lookup on objects,
`undefined` (`none`) on everything else. -/
def Json.getField : Json → String → Option Json
  | .obj fields, k => fields.lookup k
  | _, _ => none

/-- JavaScript truthiness of a JSON value. -/
def jsTruthy : Json → Bool
  | .null => false
  | .bool b => b
  | .num n => n != 0
  | .str s => s != ""
  | .arr _ => true
  | .obj _ => true

/-- JavaScript `v || d` for a possibly-undefined JSON value (`none` =
`undefined`), as in `result.metadata || {}`. -/
def jsOr (v : Option Json) (d : Json) : Json :=
  match v with
  | some j => if jsTruthy j then j else d
  | none => d

/-- JavaScript `v || d` for a possibly-undefined string-typed value: the
empty string is falsy, so it also falls back to the default (as in
`result.title || 'No title'`). -/
def jsOrS (v : Option String) (d : String) : String :=
  match v with
  | some s => if s = "" then d else s
  | none => d

/-- JavaScript `v || d` for a numeric argument field, as in
`functionArgs.limit || 5`: `0` is falsy and falls back to the default.
Model restriction: the tool schema declares `limit` as a number, so
non-numeric values are mapped to the default. -/
def jsOrNum (v : Option Json) (d : Int) : Int :=
  match v with
  | some (.num n) => if n = 0 then d else n
  | _ => d

/-- JavaScript `v || d` for a string argument field, as in
`functionArgs.lang || 'en'`.  Model restriction: the tool schema declares
these fields as strings, so non-string values are mapped to the default. -/
def jsStrField (v : Option Json) (d : String) : String :=
  match v with
  | some (.str s) => if s = "" then d else s
  | _ => d

/-- Extraction of `functionArgs.query`, which the relay passes verbatim to
`searchWithFirecrawl` (whose TypeScript signature types it `string`).  The
model covers payloads whose `query` field is a string; other values are
mapped to the empty string. -/
def jsStrQuery (v : Option Json) : String :=
  match v with
  | some (.str s) => s
  | _ => ""

/-- One raw result record in the Firecrawl response payload; every field may
be absent. -/
structure FirecrawlRecord where
  title : Option String
  url : Option String
  description : Option String
  markdown : Option String
  screenshot : Option String
  metadata : Option Json

/-- One normalized result record as built by `searchWithFirecrawl`
(route.ts lines 303-310): missing fields are defaulted, never left
undefined. -/
structure ResultRecord where
  title : String
  url : String
  description : String
  markdown : String
  screenshot : Option String
  metadata : Json

/-- Normalization of one raw record (route.ts lines 303-310):
`result.title || 'No title'`, `result.url || ''`,
`result.description || ''`, `result.markdown || 'No content available'`,
`result.screenshot || null`, `result.metadata || {}`. -/
def mapRecord (r : FirecrawlRecord) : ResultRecord :=
  { title := jsOrS r.title "No title"
    url := jsOrS r.url ""
    description := jsOrS r.description ""
    markdown := jsOrS r.markdown "No content available"
    screenshot :=
      match r.screenshot with
      | some s => if s = "" then none else some s
      | none => none
    metadata := jsOr r.metadata (Json.obj []) }

/-- Parsed JSON body of a Firecrawl `/v1/search` response: a success flag
(any falsy/missing indicator collapses to `false`) and an optional `data`
array of raw records. -/
structure FirecrawlPayload where
  success : Bool
  data : Option (List FirecrawlRecord)

/-- Result of the outbound `fetch` to the retrieval service. -/
structure FetchResponse where
  ok : Bool
  status : Nat
  statusText : String
  body : FirecrawlPayload

/-- The normalized RetrievalResult returned by `searchWithFirecrawl`:
tagged success (query, `resultsCount`, `results`, `summary`) or failure
(query, `error`, `summary`; the code additionally carries `results: []` on
failure). -/
inductive RetrievalResult where
  | success (query : String) (resultsCount : Nat) (results : List ResultRecord) (summary : String)
  | failure (query : String) (error : String) (summary : String)

/-- The failure shape built in the catch block of `searchWithFirecrawl`
(route.ts lines 317-326). -/
def mkFailure (query err : String) : RetrievalResult :=
  .failure query err ("Failed to search for \"" ++ query ++ "\". Error: " ++ err)

/-- Success tag of a RetrievalResult. -/
def RetrievalResult.isSuccess : RetrievalResult → Bool
  | .success .. => true
  | .failure .. => false

/-- The `error` field of a failure result (empty on success, where the
field is absent). -/
def RetrievalResult.errorMsg : RetrievalResult → String
  | .success .. => ""
  | .failure _ e _ => e

/-- JavaScript `searchData.resultsCount || 0` (route.ts line 448): the
field is absent on failure. -/
def RetrievalResult.resultsCountOrZero : RetrievalResult → Nat
  | .success _ c _ _ => c
  | .failure .. => 0

/-- The JSON body of one outbound request to the retrieval service
(route.ts lines 280-288); the constant `scrapeOptions` formats selector is
omitted. -/
structure FirecrawlRequest where
  query : String
  limit : Int
  lang : String
  country : String

/-- Structured view of the serialized content of a synthesized `tool`
message: the three error shapes the relay `JSON.stringify`s
(route.ts lines 418, 432, 459) and the serialized search data
(route.ts line 452). -/
inductive ToolContent where
  | errMissingArgs
  | errInvalidArgs
  | errUnknownFunction (name : String)
  | searchData (r : RetrievalResult)

/-- Error-content test: everything except serialized search data. -/
def ToolContent.isError : ToolContent → Bool
  | .searchData _ => false
  | _ => true

/-- One tool-call request emitted by the model: opaque call identifier,
tool name, and raw JSON-encoded argument payload (possibly absent). -/
structure ToolCall where
  id : String
  name : String
  arguments : Option String

/-- The model's first-pass message: optional text content and a (possibly
empty) list of tool-call requests. -/
structure AssistantMsg where
  content : Option String
  tool_calls : List ToolCall

/-- A message in an outbound completion-service request: a client-supplied
history element passed through verbatim, the model's own first-pass
message, or a synthesized `tool` message tagged with a call identifier. -/
inductive Msg where
  | given (j : Json)
  | assistant (m : AssistantMsg)
  | tool (content : ToolContent) (tool_call_id : String)

/-- One outbound completion-service request: the ordered message list,
whether the tool declaration is attached, and the `max_tokens` setting. -/
structure CompletionRequest where
  messages : List Msg
  toolsOffered : Bool
  maxTokens : Nat

/-- One outbound network call issued by the relay, in issue order. -/
inductive NetCall where
  | completion (req : CompletionRequest)
  | retrieval (req : FirecrawlRequest)

/-- One synthesized tool-result message, before being wrapped as a
`Msg.tool`. -/
structure ToolMsg where
  content : ToolContent
  tool_call_id : String

/-- Token-usage counters of one completion-service response; each field may
be absent (the code guards each with `|| 0`). -/
structure Usage where
  prompt_tokens : Option Nat
  completion_tokens : Option Nat
  total_tokens : Option Nat

/-- One choice of a completion-service response. -/
structure Choice where
  message : Option AssistantMsg

/-- A completion-service response: choices and optional usage. -/
structure Completion where
  choices : List Choice
  usage : Option Usage

/-- JavaScript `completion.choices[0]?.message`. -/
def Completion.firstMessage (c : Completion) : Option AssistantMsg :=
  match c.choices with
  | [] => none
  | ch :: _ => ch.message

/-- Process environment: whether each credential is configured. -/
structure Env where
  openaiKey : Bool
  firecrawlKey : Bool

/-- Oracles for the external collaborators of one request: the parsed
request body (`req.json()`), `JSON.parse` for tool-argument payloads, the
first and second completion-service responses, and the retrieval-service
`fetch`. -/
structure World where
  parseBody : Except String Json
  parseJson : String → Option Json
  firstCompletion : Except String Completion
  fetchSearch : FirecrawlRequest → Except String FetchResponse
  secondCompletion : Except String Completion

/-- The usage object of the tool-path 200 response (route.ts lines
490-494): each field is the sum of the two calls' counters, absent
counters contributing 0. -/
structure SummedUsage where
  prompt_tokens : Nat
  completion_tokens : Nat
  total_tokens : Nat

/-- Body of the relay's HTTP response: an error body, the tool-path chat
body (`functionCalled: true`, with `searchQuery` and `resultsCount`), or
the plain chat body (`functionCalled: false`, usage passed through
verbatim). -/
inductive ResponseBody where
  | error (message : String) (details : Option String)
  | chatToolUsed (response : String) (usage : SummedUsage) (searchQuery : String) (resultsCount : Nat)
  | chatPlain (response : String) (usage : Option Usage)

/-- The `total_tokens` field of a response body, when present. -/
def ResponseBody.totalTokens : ResponseBody → Option Nat
  | .chatToolUsed _ u _ _ => some u.total_tokens
  | .chatPlain _ (some u) => u.total_tokens
  | .chatPlain _ none => none
  | .error _ _ => none

/-- An HTTP response of the relay. -/
structure ApiResponse where
  status : Nat
  body : ResponseBody

/-- JavaScript `usage?.f || 0`. -/
def usageField (u : Option Usage) (f : Usage → Option Nat) : Nat :=
  match u with
  | some x => (f x).getD 0
  | none => 0

/-- The merged usage of the tool path (route.ts lines 490-494). -/
def sumUsage (c1 c2 : Completion) : SummedUsage :=
  ⟨usageField c1.usage Usage.prompt_tokens + usageField c2.usage Usage.prompt_tokens,
   usageField c1.usage Usage.completion_tokens + usageField c2.usage Usage.completion_tokens,
   usageField c1.usage Usage.total_tokens + usageField c2.usage Usage.total_tokens⟩

/-- JavaScript `secondCompletion.choices[0]?.message?.content || 'Unable to
process the search results.'` (route.ts line 486). -/
def finalText (c : Completion) : String :=
  match c.firstMessage with
  | some m => jsOrS m.content "Unable to process the search results."
  | none => "Unable to process the search results."

/-- The first completion-service request (route.ts lines 369-379): the raw
history, the tool declaration attached, `max_tokens: 1000`. -/
def firstRequest (msgs : List Json) : CompletionRequest :=
  ⟨msgs.map Msg.given, true, 1000⟩

/-- The second completion-service request (route.ts lines 468-477): history,
then the model's message, then all synthesized tool messages; no tool
declaration; `max_tokens: 1500`. -/
def secondRequest (msgs : List Json) (message : AssistantMsg) (toolResults : List ToolMsg) :
    CompletionRequest :=
  ⟨msgs.map Msg.given ++ [Msg.assistant message]
     ++ toolResults.map (fun t => Msg.tool t.content t.tool_call_id),
   false, 1500⟩

/-- The retrieval request the relay builds for a parsed argument payload:
query passed through, `limit: Math.min(functionArgs.limit || 5, 10)`,
`lang`/`country` defaulted (route.ts lines 280-288 and 440-445). -/
def searchRequest (args : Json) : FirecrawlRequest :=
  ⟨jsStrQuery (args.getField "query"),
   min (jsOrNum (args.getField "limit") 5) 10,
   jsStrField (args.getField "lang") "en",
   jsStrField (args.getField "country") "us"⟩

/-- The limits of the retrieval calls in a network trace, in order. -/
def retrievalLimits (calls : List NetCall) : List Int :=
  calls.filterMap fun c =>
    match c with
    | .retrieval r => some r.limit
    | _ => none

/-- The Content-Retrieval Client `searchWithFirecrawl` (route.ts lines
265-327), returning its RetrievalResult together with the retrieval calls
it issued.  Every throw inside the `try` lands in the catch block, which
converts it into a failure result; nothing escapes to the caller. -/
def searchWithFirecrawl (env : Env) (fetch : FirecrawlRequest → Except String FetchResponse)
    (query : String) (limit : Int) (lang : String) (country : String) :
    RetrievalResult × List NetCall :=
  if env.firecrawlKey = false then
    (mkFailure query "FIRECRAWL_API_KEY not configured", [])
  else
    let req : FirecrawlRequest := ⟨query, min limit 10, lang, country⟩
    match fetch req with
    | .error e => (mkFailure query e, [NetCall.retrieval req])
    | .ok resp =>
      if resp.ok = false then
        (mkFailure query
           ("Firecrawl Search API error: " ++ toString resp.status ++ " " ++ resp.statusText),
         [NetCall.retrieval req])
      else
        match resp.body.data with
        | some rs =>
          if resp.body.success = true ∧ 0 < rs.length then
            (RetrievalResult.success query rs.length (rs.map mapRecord)
               ("Found " ++ toString rs.length ++ " results for \"" ++ query ++ "\""),
             [NetCall.retrieval req])
          else
            (mkFailure query "Firecrawl search returned no results", [NetCall.retrieval req])
        | none =>
          (mkFailure query "Firecrawl search returned no results", [NetCall.retrieval req])

/-- The retrieval invocation the relay performs for a parsed `search_web`
payload (route.ts lines 440-445): query passed through, `limit` defaulted
with `|| 5`, `lang`/`country` defaulted with `|| 'en'` and `|| 'us'`. -/
def searchOf (env : Env) (w : World) (args : Json) : RetrievalResult × List NetCall :=
  searchWithFirecrawl env w.fetchSearch
    (jsStrQuery (args.getField "query"))
    (jsOrNum (args.getField "limit") 5)
    (jsStrField (args.getField "lang") "en")
    (jsStrField (args.getField "country") "us")

/-- Processing of one tool call in the relay's loop (route.ts lines
408-463): missing/empty arguments and unparsable arguments become
error-content tool messages; `search_web` invokes the retrieval client and
records `(searchQuery, resultsCount)`; any other name becomes an
unknown-function error message.  Returns the synthesized tool message, the
retrieval calls issued, and the loop-state update. -/
def processOne (env : Env) (w : World) (tc : ToolCall) :
    ToolMsg × List NetCall × Option (String × Nat) :=
  match tc.arguments with
  | none => (⟨.errMissingArgs, tc.id⟩, [], none)
  | some s =>
    if s = "" then (⟨.errMissingArgs, tc.id⟩, [], none)
    else
      match w.parseJson s with
      | none => (⟨.errInvalidArgs, tc.id⟩, [], none)
      | some args =>
        if tc.name = "search_web" then
          (⟨.searchData (searchOf env w args).1, tc.id⟩, (searchOf env w args).2,
           some (jsStrQuery (args.getField "query"), (searchOf env w args).1.resultsCountOrZero))
        else
          (⟨.errUnknownFunction tc.name, tc.id⟩, [], none)

/-- Accumulated output of the tool-call loop: the synthesized tool messages
in request order, the retrieval calls in issue order, and the final
`searchQuery`/`resultsCount` state (initialized to `''`/`0`, overwritten by
each `search_web` call). -/
structure ToolLoopOut where
  toolResults : List ToolMsg
  calls : List NetCall
  searchQuery : String
  resultsCount : Nat

/-- The relay's `for (const toolCall of message.tool_calls)` loop
(route.ts lines 404-463). -/
def toolLoop (env : Env) (w : World) : List ToolCall → String → Nat → ToolLoopOut
  | [], sq, rc => ⟨[], [], sq, rc⟩
  | tc :: rest, sq, rc =>
    let p := processOne env w tc
    let sq2 := match p.2.2 with | some u => u.1 | none => sq
    let rc2 := match p.2.2 with | some u => u.2 | none => rc
    let out := toolLoop env w rest sq2 rc2
    ⟨p.1 :: out.toolResults, p.2.1 ++ out.calls, out.searchQuery, out.resultsCount⟩

/-- The tool branch of the relay (route.ts lines 400-498): run the loop,
issue the second completion call (no tool declaration), and build the 200
body with summed usage — or a 500 if the second call throws.  Either way
the second call is issued after all retrieval calls. -/
def handleToolCalls (env : Env) (w : World) (msgs : List Json)
    (completion : Completion) (message : AssistantMsg) : ApiResponse × List NetCall :=
  let out := toolLoop env w message.tool_calls "" 0
  let req2 := secondRequest msgs message out.toolResults
  match w.secondCompletion with
  | .error e =>
    (⟨500, .error "Failed to process search results" (some e)⟩,
     NetCall.completion (firstRequest msgs) :: out.calls ++ [NetCall.completion req2])
  | .ok c2 =>
    (⟨200, .chatToolUsed (finalText c2) (sumUsage completion c2) out.searchQuery out.resultsCount⟩,
     NetCall.completion (firstRequest msgs) :: out.calls ++ [NetCall.completion req2])

/-- Dispatch on the first-pass message (route.ts lines 400 and 501-508):
the tool branch when `tool_calls` is nonempty, otherwise the plain 200
response with `message?.content || 'No response generated'` and the first
call's usage passed through verbatim. -/
def handleMessage (env : Env) (w : World) (msgs : List Json)
    (completion : Completion) (message : AssistantMsg) : ApiResponse × List NetCall :=
  if 0 < message.tool_calls.length then
    handleToolCalls env w msgs completion message
  else
    (⟨200, .chatPlain (jsOrS message.content "No response generated") completion.usage⟩,
     [NetCall.completion (firstRequest msgs)])

/-- The relay after request validation (route.ts lines 357-397): missing
completion credential is a 500 before any call; a throwing first completion
call or an absent first message is a 500 after one call. -/
def runChat (env : Env) (w : World) (msgs : List Json) : ApiResponse × List NetCall :=
  if env.openaiKey = false then
    (⟨500, .error "OpenAI API key not configured. Please add OPENAI_API_KEY to your .env.local file." none⟩,
     [])
  else
    match w.firstCompletion with
    | .error e =>
      (⟨500, .error "Failed to get response from OpenAI" (some e)⟩,
       [NetCall.completion (firstRequest msgs)])
    | .ok completion =>
      match completion.firstMessage with
      | none =>
        (⟨500, .error "No response generated by OpenAI" none⟩,
         [NetCall.completion (firstRequest msgs)])
      | some message => handleMessage env w msgs completion message

/-- Message of the TypeError raised by destructuring a null body; the V8
wording quotes the property and variable names. -/
def destructureNullMsg : String :=
  "Cannot destructure property messages of body as it is null"

/-- The POST handler of the canonical relay variant (route.ts lines
329-527): 400 on an unparsable body; a JSON `null` body makes the
destructuring `const ... = body` throw, which the outer catch turns into a
500; 400 when the `messages` field is missing or not an array (any array,
even empty, passes the `!messages || !Array.isArray(messages)` check);
otherwise the two-phase relay runs.  Returns the HTTP response and the
ordered trace of outbound network calls. -/
def POST (env : Env) (w : World) : ApiResponse × List NetCall :=
  match w.parseBody with
  | .error _ => (⟨400, .error "Invalid JSON in request body" none⟩, [])
  | .ok Json.null => (⟨500, .error "Internal server error" (some destructureNullMsg)⟩, [])
  | .ok body =>
    match body.getField "messages" with
    | some (Json.arr msgs) => runChat env w msgs
    | _ => (⟨400, .error "Messages must be an array" none⟩, [])

/-- Concrete fixtures used to instantiate the theorems. -/
def env_ok : Env := ⟨true, true⟩

/-- A one-message conversation history. -/
def histMsgs : List Json := [Json.obj [("role", Json.str "user"), ("content", Json.str "hi")]]

/-- A well-formed request body carrying that history. -/
def bodyMsgs : Json := Json.obj [("messages", Json.arr histMsgs)]

/-- One raw Firecrawl record. -/
def recA : FirecrawlRecord := ⟨some "T", some "u", some "d", some "m", none, none⟩

/-- A successful retrieval response with one record. -/
def okResp : FetchResponse := ⟨true, 200, "OK", ⟨true, some [recA]⟩⟩

/-- A non-2xx retrieval response. -/
def badResp : FetchResponse := ⟨false, 500, "Internal Server Error", ⟨true, some [recA]⟩⟩

/-- A 200 retrieval response with zero records. -/
def emptyResp : FetchResponse := ⟨true, 200, "OK", ⟨true, some []⟩⟩

/-- Usage counters of the two completion calls. -/
def usage1 : Usage := ⟨some 10, some 5, some 15⟩

/-- Usage counters of the second completion call. -/
def usage2 : Usage := ⟨some 20, some 7, some 27⟩

/-- An argument payload with `limit: 25`. -/
def args25 : Json := Json.obj [("query", Json.str "lean"), ("limit", Json.num 25)]

/-- An argument payload with a negative `limit: -3`. -/
def argsNeg : Json := Json.obj [("query", Json.str "x"), ("limit", Json.num (-3))]

/-- A `JSON.parse` oracle mapping two opaque payload strings to the two
payloads above and failing on everything else. -/
def parseArgs : String → Option Json := fun s =>
  if s = "payload25" then some args25
  else if s = "payloadNeg" then some argsNeg
  else none

/-- A `search_web` tool call with the `limit: 25` payload. -/
def tc25 : ToolCall := ⟨"call_1", "search_web", some "payload25"⟩

/-- A `search_web` tool call with the negative-limit payload. -/
def tcNeg : ToolCall := ⟨"call_n", "search_web", some "payloadNeg"⟩

/-- A tool call with no argument payload at all. -/
def tcBad : ToolCall := ⟨"call_b", "search_web", none⟩

/-- A tool call whose name is not the registered tool. -/
def tcUnk : ToolCall := ⟨"call_u", "other_tool", some "payload25"⟩

/-- A first-pass completion whose message requests the given tool calls. -/
def compOf (tcs : List ToolCall) : Completion := ⟨[⟨some ⟨none, tcs⟩⟩], some usage1⟩

/-- A first-pass completion with a plain text answer and no tool calls. -/
def compPlain : Completion := ⟨[⟨some ⟨some "plain answer", []⟩⟩], some usage1⟩

/-- The second-pass completion. -/
def comp2 : Completion := ⟨[⟨some ⟨some "final answer", []⟩⟩], some usage2⟩

/-- A world with a well-formed body, the standard oracles, and the given
first completion and retrieval behaviour. -/
def mkWorld (first : Completion) (fetch : FirecrawlRequest → Except String FetchResponse) : World :=
  ⟨.ok bodyMsgs, parseArgs, .ok first, fetch, .ok comp2⟩

/-- A retrieval service always answering with one record. -/
def fetchGood : FirecrawlRequest → Except String FetchResponse := fun _ => .ok okResp

/-- A retrieval service always answering with zero records. -/
def fetchEmpty : FirecrawlRequest → Except String FetchResponse := fun _ => .ok emptyResp

/-- A world whose request body parses to JSON `null`. -/
def w_nullBody : World := ⟨.ok Json.null, parseArgs, .ok compPlain, fetchGood, .ok comp2⟩

/-- A world whose request body is an object without a `messages` field. -/
def w_noMsgs : World :=
  ⟨.ok (Json.obj [("foo", Json.num 1)]), parseArgs, .ok compPlain, fetchGood, .ok comp2⟩

/-- A retrieval service always answering with a non-2xx status. -/
def fetchBad : FirecrawlRequest → Except String FetchResponse := fun _ => .ok badResp

/-- A world whose model requests `search_web` with the `limit: 25` payload. -/
def w25 : World := mkWorld (compOf [tc25]) fetchGood

/-- A world whose model requests `search_web` with the negative-limit
payload. -/
def w_neg : World := mkWorld (compOf [tcNeg]) fetchGood

/-- A world whose model requests `search_web` but the retrieval service
answers with a non-2xx status. -/
def w_bad : World := mkWorld (compOf [tc25]) fetchBad

/-- A world whose model requests an unregistered tool. -/
def w_unk : World := mkWorld (compOf [tcUnk]) fetchGood

/-- A world whose model requests `search_web` without any arguments. -/
def w_badArgs : World := mkWorld (compOf [tcBad]) fetchGood

/-- A world whose model answers directly, with no tool calls. -/
def w_plain : World := mkWorld compPlain fetchGood

/-- Every branch of `processOne` tags the synthesized tool message with the
call identifier the model supplied. -/
theorem processOne_id (env : Env) (w : World) (tc : ToolCall) :
    (processOne env w tc).1.tool_call_id = tc.id := by
  unfold processOne
  rcases tc with ⟨i, n, args⟩
  cases args with
  | none => rfl
  | some s =>
    dsimp only
    split
    · rfl
    · cases w.parseJson s with
      | none => rfl
      | some a =>
        dsimp only
        split <;> rfl

/-- The loop synthesizes one tool message per tool call. -/
theorem toolLoop_length (env : Env) (w : World) (tcs : List ToolCall) (sq : String) (rc : Nat) :
    (toolLoop env w tcs sq rc).toolResults.length = tcs.length := by
  induction tcs generalizing sq rc with
  | nil => rfl
  | cons tc rest ih => simp [toolLoop, ih]

/-- The loop's tool messages carry, in order, exactly the identifiers of the
tool calls it was given. -/
theorem toolLoop_ids (env : Env) (w : World) (tcs : List ToolCall) (sq : String) (rc : Nat) :
    (toolLoop env w tcs sq rc).toolResults.map ToolMsg.tool_call_id = tcs.map ToolCall.id := by
  induction tcs generalizing sq rc with
  | nil => rfl
  | cons tc rest ih => simp [toolLoop, ih, processOne_id]

/-- Reduction of `POST` to `runChat` once the body has parsed to an object
with an array-valued `messages` field. -/
theorem POST_eq_runChat (env : Env) (w : World) (body : Json) (msgs : List Json)
    (h1 : w.parseBody = .ok body)
    (h2 : body.getField "messages" = some (Json.arr msgs)) :
    POST env w = runChat env w msgs := by
  unfold POST
  rw [h1]
  cases body with
  | null => simp [Json.getField] at h2
  | bool b => simp [Json.getField] at h2
  | num n => simp [Json.getField] at h2
  | str s => simp [Json.getField] at h2
  | arr xs => simp [Json.getField] at h2
  | obj fields => simp only []; rw [h2]

/-- Reduction of `runChat` to `handleMessage` once the credential is
configured, the first completion call succeeded, and it carried a message. -/
theorem runChat_eq (env : Env) (w : World) (msgs : List Json)
    (completion : Completion) (message : AssistantMsg)
    (h3 : env.openaiKey = true)
    (h4 : w.firstCompletion = .ok completion)
    (h5 : completion.firstMessage = some message) :
    runChat env w msgs = handleMessage env w msgs completion message := by
  unfold runChat
  rw [h3, h4]
  simp only [Bool.true_eq_false, if_false, h5]

/-- When the retrieval credential is configured, `searchWithFirecrawl`
issues exactly one retrieval call, for the clamped request, whatever the
service answers. -/
theorem searchWithFirecrawl_calls (env : Env)
    (fetch : FirecrawlRequest → Except String FetchResponse)
    (query : String) (limit : Int) (lang country : String)
    (hkey : env.firecrawlKey = true) :
    (searchWithFirecrawl env fetch query limit lang country).2 =
      [NetCall.retrieval ⟨query, min limit 10, lang, country⟩] := by
  unfold searchWithFirecrawl
  rw [hkey]
  simp only [Bool.true_eq_false, if_false]
  cases fetch ⟨query, min limit 10, lang, country⟩ with
  | error e => rfl
  | ok resp =>
    dsimp only
    by_cases hok : resp.ok = false
    · rw [if_pos hok]
    · rw [if_neg hok]
      cases resp.body.data with
      | none => rfl
      | some rs =>
        dsimp only
        by_cases hs : resp.body.success = true ∧ 0 < rs.length

        · rw [if_pos hs]
        · rw [if_neg hs]

/-- C1 counterexample: a request body that parses to JSON `null` lacks a
`messages` field, yet the relay returns 500 — the destructuring of the null
body throws and the outer catch answers 500, not 400 — while still issuing
no network calls. -/
theorem C1_counterexample :
    Json.getField Json.null "messages" = none ∧
    (POST env_ok w_nullBody).1.status = 500 ∧
    ¬ (POST env_ok w_nullBody).1.status = 400 ∧
    (POST env_ok w_nullBody).2 = [] := by
  refine ⟨rfl, rfl, ?_, rfl⟩
  intro h
  simp [POST, w_nullBody] at h

/-- C1 (amended): for every request whose body parses to a JSON value other
than `null` in which `messages` is missing or is not an array, the relay
returns 400 and issues no completion-service or retrieval-service call.
(A JSON `null` body instead yields a 500, still with no network calls.) -/
theorem C1_invalid_messages_400 (env : Env) (w : World) (body : Json)
    (h1 : w.parseBody = .ok body) (hnull : body ≠ Json.null)
    (hmsgs : ∀ msgs, body.getField "messages" ≠ some (Json.arr msgs)) :
    (POST env w).1.status = 400 ∧ (POST env w).2 = [] := by
  unfold POST
  rw [h1]
  cases body with
  | null => exact absurd rfl hnull
  | bool b => exact ⟨rfl, rfl⟩
  | num n => exact ⟨rfl, rfl⟩
  | str s => exact ⟨rfl, rfl⟩
  | arr xs => exact ⟨rfl, rfl⟩
  | obj fields =>
    dsimp only
    cases hf : Json.getField (Json.obj fields) "messages" with
    | none => exact ⟨rfl, rfl⟩
    | some j =>
      cases j with
      | arr ms => exact absurd hf (hmsgs ms)
      | null => exact ⟨rfl, rfl⟩
      | bool b => exact ⟨rfl, rfl⟩
      | num n => exact ⟨rfl, rfl⟩
      | str s => exact ⟨rfl, rfl⟩
      | obj f2 => exact ⟨rfl, rfl⟩

/-- C1 witness: a body without a `messages` field gets a 400 and an empty
network trace. -/
theorem C1_witness :
    (POST env_ok w_noMsgs).1.status = 400 ∧ (POST env_ok w_noMsgs).2 = [] :=
  C1_invalid_messages_400 env_ok w_noMsgs (Json.obj [("foo", Json.num 1)]) rfl
    (fun h => Json.noConfusion h)
    (fun msgs h => by simp [Json.getField, List.lookup] at h)

/-- C2: when the first-pass message carries `N ≥ 1` tool-call requests, the
relay synthesizes exactly `N` tool messages carrying, in order, the
identifiers of the requests, and the second completion request — the last
network call of the turn, issued after all retrieval calls — contains
exactly those messages. -/
theorem C2_all_tool_calls_processed (env : Env) (w : World) (body : Json) (msgs : List Json)
    (completion : Completion) (message : AssistantMsg)
    (h1 : w.parseBody = .ok body)
    (h2 : body.getField "messages" = some (Json.arr msgs))
    (h3 : env.openaiKey = true)
    (h4 : w.firstCompletion = .ok completion)
    (h5 : completion.firstMessage = some message)
    (h6 : message.tool_calls ≠ []) :
    (toolLoop env w message.tool_calls "" 0).toolResults.length = message.tool_calls.length ∧
    (toolLoop env w message.tool_calls "" 0).toolResults.map ToolMsg.tool_call_id
      = message.tool_calls.map ToolCall.id ∧
    (POST env w).2 =
      NetCall.completion (firstRequest msgs) :: (toolLoop env w message.tool_calls "" 0).calls
        ++ [NetCall.completion
              (secondRequest msgs message (toolLoop env w message.tool_calls "" 0).toolResults)] := by
  refine ⟨toolLoop_length env w _ "" 0, toolLoop_ids env w _ "" 0, ?_⟩
  rw [POST_eq_runChat env w body msgs h1 h2, runChat_eq env w msgs completion message h3 h4 h5]
  unfold handleMessage
  rw [if_pos (List.length_pos.mpr h6)]
  unfold handleToolCalls
  cases hsc : w.secondCompletion with
  | error e => rfl
  | ok c2 => rfl

/-- C2 witness: a first pass with two tool calls yields two tool messages,
in order, and the second completion request carries both. -/
theorem C2_witness :
    (toolLoop env_ok (mkWorld (compOf [tc25, tcBad]) fetchGood) [tc25, tcBad] "" 0).toolResults.length
        = ([tc25, tcBad] : List ToolCall).length ∧
    (toolLoop env_ok (mkWorld (compOf [tc25, tcBad]) fetchGood) [tc25, tcBad] "" 0).toolResults.map
        ToolMsg.tool_call_id = ([tc25, tcBad] : List ToolCall).map ToolCall.id ∧
    (POST env_ok (mkWorld (compOf [tc25, tcBad]) fetchGood)).2 =
      NetCall.completion (firstRequest histMsgs)
        :: (toolLoop env_ok (mkWorld (compOf [tc25, tcBad]) fetchGood) [tc25, tcBad] "" 0).calls
        ++ [NetCall.completion
              (secondRequest histMsgs ⟨none, [tc25, tcBad]⟩
                (toolLoop env_ok (mkWorld (compOf [tc25, tcBad]) fetchGood)
                  [tc25, tcBad] "" 0).toolResults)] :=
  C2_all_tool_calls_processed env_ok (mkWorld (compOf [tc25, tcBad]) fetchGood) bodyMsgs histMsgs
    (compOf [tc25, tcBad]) ⟨none, [tc25, tcBad]⟩ rfl rfl rfl rfl rfl (List.cons_ne_nil _ _)

/-- C10: a success-tagged RetrievalResult always carries a nonempty result
list whose length equals `resultsCount`, and a retrieval-service response
whose `data` array is empty is converted into a failure, never a success
with count 0. -/
theorem C10_success_invariant (env : Env)
    (fetch : FirecrawlRequest → Except String FetchResponse)
    (query : String) (limit : Int) (lang country : String) :
    (∀ q n rs sm,
        (searchWithFirecrawl env fetch query limit lang country).1
          = RetrievalResult.success q n rs sm → rs ≠ [] ∧ n = rs.length) ∧
    (∀ resp, fetch ⟨query, min limit 10, lang, country⟩ = Except.ok resp →
        resp.body.data = some [] →
        (searchWithFirecrawl env fetch query limit lang country).1.isSuccess = false) := by
  constructor
  · intro q n rs sm h
    unfold searchWithFirecrawl at h
    by_cases hkey : env.firecrawlKey = false
    · rw [if_pos hkey] at h
      simp [mkFailure] at h
    · rw [if_neg hkey] at h
      dsimp only at h
      cases hf : fetch ⟨query, min limit 10, lang, country⟩ with
      | error e => rw [hf] at h; simp [mkFailure] at h
      | ok resp =>
        rw [hf] at h
        dsimp only at h
        by_cases hok : resp.ok = false
        · rw [if_pos hok] at h; simp [mkFailure] at h
        · rw [if_neg hok] at h
          cases hd : resp.body.data with
          | none => rw [hd] at h; simp [mkFailure] at h
          | some rs0 =>
            rw [hd] at h
            dsimp only at h
            by_cases hs : resp.body.success = true ∧ 0 < rs0.length
            · rw [if_pos hs] at h
              dsimp only at h
              injection h with hq hn hr hsm
              subst hn
              subst hr
              refine ⟨?_, (List.length_map rs0 mapRecord).symm⟩
              intro hc
              rw [List.map_eq_nil_iff] at hc
              subst hc
              exact absurd hs.2 (by simp)
            · rw [if_neg hs] at h; simp [mkFailure] at h
  · intro resp hf hd
    unfold searchWithFirecrawl
    by_cases hkey : env.firecrawlKey = false
    · rw [if_pos hkey]; rfl
    · rw [if_neg hkey]
      dsimp only
      rw [hf]
      dsimp only
      by_cases hok : resp.ok = false
      · rw [if_pos hok]; rfl
      · rw [if_neg hok]
        rw [hd]
        dsimp only
        rw [if_neg (fun hc => Nat.lt_irrefl 0 hc.2)]
        rfl

/-- C10 witness: one record yields a success with matching count; the
zero-record response yields a failure tag. -/
theorem C10_witness :
    ([mapRecord recA] ≠ [] ∧ 1 = [mapRecord recA].length) ∧
    (searchWithFirecrawl env_ok fetchEmpty "q" 5 "en" "us").1.isSuccess = false := by
  constructor
  · exact (C10_success_invariant env_ok fetchGood "q" 5 "en" "us").1 "q" 1 [mapRecord recA] _ rfl
  · exact (C10_success_invariant env_ok fetchEmpty "q" 5 "en" "us").2 emptyResp rfl rfl

/-- Reduction of `processOne` on a `search_web` call with a parsable
argument payload. -/
theorem processOne_search (env : Env) (w : World) (tc : ToolCall) (s : String) (args : Json)
    (hargs : tc.arguments = some s) (hs : s ≠ "") (hp : w.parseJson s = some args)
    (hname : tc.name = "search_web") :
    processOne env w tc =
      (⟨.searchData (searchOf env w args).1, tc.id⟩, (searchOf env w args).2,
       some (jsStrQuery (args.getField "query"), (searchOf env w args).1.resultsCountOrZero)) := by
  unfold processOne
  rw [hargs]
  dsimp only
  rw [if_neg hs, hp]
  dsimp only
  rw [if_pos hname]

/-- Reduction of the loop on a single valid `search_web` call. -/
theorem toolLoop_search_single (env : Env) (w : World) (tc : ToolCall) (s : String) (args : Json)
    (hargs : tc.arguments = some s) (hs : s ≠ "") (hp : w.parseJson s = some args)
    (hname : tc.name = "search_web") :
    toolLoop env w [tc] "" 0 =
      ⟨[⟨.searchData (searchOf env w args).1, tc.id⟩], (searchOf env w args).2,
       jsStrQuery (args.getField "query"), (searchOf env w args).1.resultsCountOrZero⟩ := by
  simp only [toolLoop, processOne_search env w tc s args hargs hs hp hname, List.append_nil]

/-- A tool call whose name is not the registered one synthesizes an
error-content message and issues no retrieval call, whatever its
arguments. -/
theorem processOne_not_search (env : Env) (w : World) (tc : ToolCall)
    (hname : tc.name ≠ "search_web") :
    (processOne env w tc).1.content.isError = true ∧ (processOne env w tc).2.1 = [] := by
  unfold processOne
  rcases tc with ⟨i, n, args⟩
  dsimp only at hname ⊢
  cases args with
  | none => exact ⟨rfl, rfl⟩
  | some s =>
    dsimp only
    by_cases hs : s = ""
    · rw [if_pos hs]
      exact ⟨rfl, rfl⟩
    · rw [if_neg hs]
      cases hp : w.parseJson s with
      | none => exact ⟨rfl, rfl⟩
      | some args2 =>
        dsimp only
        rw [if_neg hname]
        exact ⟨rfl, rfl⟩

/-- The network trace of a turn whose first-pass message carries tool
calls: the first completion call, then the loop's retrieval calls, then the
second completion call carrying the synthesized tool messages — whatever
the second call's outcome. -/
theorem POST_tool_trace (env : Env) (w : World) (body : Json) (msgs : List Json)
    (completion : Completion) (message : AssistantMsg)
    (h1 : w.parseBody = .ok body)
    (h2 : body.getField "messages" = some (Json.arr msgs))
    (h3 : env.openaiKey = true)
    (h4 : w.firstCompletion = .ok completion)
    (h5 : completion.firstMessage = some message)
    (h6 : message.tool_calls ≠ []) :
    (POST env w).2 =
      NetCall.completion (firstRequest msgs) :: (toolLoop env w message.tool_calls "" 0).calls
        ++ [NetCall.completion
              (secondRequest msgs message (toolLoop env w message.tool_calls "" 0).toolResults)] := by
  rw [POST_eq_runChat env w body msgs h1 h2, runChat_eq env w msgs completion message h3 h4 h5]
  unfold handleMessage
  rw [if_pos (List.length_pos.mpr h6)]
  unfold handleToolCalls
  cases hsc : w.secondCompletion with
  | error e => rfl
  | ok c2 => rfl

/-- The response of a turn whose first-pass message carries tool calls and
whose second completion call succeeds: a 200 with the tool-path body. -/
theorem POST_tool_status (env : Env) (w : World) (body : Json) (msgs : List Json)
    (completion : Completion) (message : AssistantMsg) (c2 : Completion)
    (h1 : w.parseBody = .ok body)
    (h2 : body.getField "messages" = some (Json.arr msgs))
    (h3 : env.openaiKey = true)
    (h4 : w.firstCompletion = .ok completion)
    (h5 : completion.firstMessage = some message)
    (h6 : message.tool_calls ≠ [])
    (hsc : w.secondCompletion = .ok c2) :
    (POST env w).1 =
      ⟨200, .chatToolUsed (finalText c2) (sumUsage completion c2)
        (toolLoop env w message.tool_calls "" 0).searchQuery
        (toolLoop env w message.tool_calls "" 0).resultsCount⟩ := by
  rw [POST_eq_runChat env w body msgs h1 h2, runChat_eq env w msgs completion message h3 h4 h5]
  unfold handleMessage
  rw [if_pos (List.length_pos.mpr h6)]
  unfold handleToolCalls
  rw [hsc]

/-- A non-empty string results from prefixing the Firecrawl API error
header to any status rendering. -/
theorem firecrawlApiError_ne_empty (s t : String) :
    ("Firecrawl Search API error: " ++ s ++ " " ++ t) ≠ "" := by
  intro hc
  have hlen := congrArg String.length hc
  rw [String.length_append, String.length_append, String.length_append] at hlen
  have h1 : (0 : Nat) < String.length "Firecrawl Search API error: " := by decide
  have h0 : String.length "" = 0 := rfl
  omega

/-- C3: on a single `search_web` request with a parsable payload, the relay
issues exactly one retrieval call, after the first and before the second
completion call, and the synthesized tool message carries the identifier
the model supplied in the request. -/
theorem C3_one_retrieval_matching_id (env : Env) (w : World) (body : Json) (msgs : List Json)
    (completion : Completion) (message : AssistantMsg) (tc : ToolCall) (s : String) (args : Json)
    (h1 : w.parseBody = .ok body)
    (h2 : body.getField "messages" = some (Json.arr msgs))
    (h3 : env.openaiKey = true)
    (h4 : w.firstCompletion = .ok completion)
    (h5 : completion.firstMessage = some message)
    (h6 : message.tool_calls = [tc])
    (hname : tc.name = "search_web")
    (hargs : tc.arguments = some s) (hs : s ≠ "") (hp : w.parseJson s = some args)
    (hkey : env.firecrawlKey = true) :
    (POST env w).2 =
      [NetCall.completion (firstRequest msgs),
       NetCall.retrieval ⟨jsStrQuery (args.getField "query"),
         min (jsOrNum (args.getField "limit") 5) 10,
         jsStrField (args.getField "lang") "en",
         jsStrField (args.getField "country") "us"⟩,
       NetCall.completion (secondRequest msgs message
         [⟨ToolContent.searchData (searchOf env w args).1, tc.id⟩])] := by
  have ht := POST_tool_trace env w body msgs completion message h1 h2 h3 h4 h5
    (by rw [h6]; exact List.cons_ne_nil _ _)
  rw [h6, toolLoop_search_single env w tc s args hargs hs hp hname] at ht
  rw [ht]
  dsimp only
  unfold searchOf
  rw [searchWithFirecrawl_calls env w.fetchSearch _ _ _ _ hkey]
  rfl

/-- C3 witness: the `limit: 25` world issues exactly the three calls with a
matching tool-call identifier. -/
theorem C3_witness :
    (POST env_ok w25).2 =
      [NetCall.completion (firstRequest histMsgs),
       NetCall.retrieval ⟨jsStrQuery (args25.getField "query"),
         min (jsOrNum (args25.getField "limit") 5) 10,
         jsStrField (args25.getField "lang") "en",
         jsStrField (args25.getField "country") "us"⟩,
       NetCall.completion (secondRequest histMsgs ⟨none, [tc25]⟩
         [⟨ToolContent.searchData (searchOf env_ok w25 args25).1, tc25.id⟩])] :=
  C3_one_retrieval_matching_id env_ok w25 bodyMsgs histMsgs (compOf [tc25]) ⟨none, [tc25]⟩
    tc25 "payload25" args25 rfl rfl rfl rfl rfl rfl rfl rfl (by decide) rfl rfl

/-- C7 counterexample: with a supplied `limit` of `-3` the effective limit
sent to the retrieval service is `-3` itself — `Math.min(limit, 10)` caps
only from above — which lies outside the claimed interval `[1, 10]`. -/
theorem C7_counterexample :
    retrievalLimits (POST env_ok w_neg).2 = [(-3 : Int)] ∧ ((-3 : Int) < 1) := by
  constructor
  · rfl
  · decide

/-- C7 (amended): the `limit` argument is optional with default 5 (a
supplied limit of 0 also falls back to the default, by JavaScript
truthiness), and the effective limit sent to the retrieval service is
`min(limit, 10)`: capped above at 10 — a supplied limit of 25 yields 10 —
but not clamped below at 1. -/
theorem C7_limit_cap (env : Env) (w : World) (body : Json) (msgs : List Json)
    (completion : Completion) (message : AssistantMsg) (tc : ToolCall) (s : String) (args : Json)
    (h1 : w.parseBody = .ok body)
    (h2 : body.getField "messages" = some (Json.arr msgs))
    (h3 : env.openaiKey = true)
    (h4 : w.firstCompletion = .ok completion)
    (h5 : completion.firstMessage = some message)
    (h6 : message.tool_calls = [tc])
    (hname : tc.name = "search_web")
    (hargs : tc.arguments = some s) (hs : s ≠ "") (hp : w.parseJson s = some args)
    (hkey : env.firecrawlKey = true) :
    retrievalLimits (POST env w).2 = [min (jsOrNum (args.getField "limit") 5) 10] := by
  have ht := POST_tool_trace env w body msgs completion message h1 h2 h3 h4 h5
    (by rw [h6]; exact List.cons_ne_nil _ _)
  rw [h6, toolLoop_search_single env w tc s args hargs hs hp hname] at ht
  rw [ht]
  dsimp only
  unfold searchOf
  rw [searchWithFirecrawl_calls env w.fetchSearch _ _ _ _ hkey]
  rfl

/-- C7 witness: a supplied limit of 25 yields an effective limit of 10. -/
theorem C7_witness : retrievalLimits (POST env_ok w25).2 = [(10 : Int)] := by
  have h := C7_limit_cap env_ok w25 bodyMsgs histMsgs (compOf [tc25]) ⟨none, [tc25]⟩
    tc25 "payload25" args25 rfl rfl rfl rfl rfl rfl rfl rfl (by decide) rfl rfl
  rw [h]
  rfl

/-- C4: on a non-2xx status or a payload without the success indicator, the
Content-Retrieval Client returns a failure-tagged result carrying a
nonempty error string — it never raises — and the relay still finishes such
a turn with a 200 response, not a 500. -/
theorem C4_retrieval_failure_handled :
    (∀ (env : Env) (fetch : FirecrawlRequest → Except String FetchResponse)
       (query : String) (limit : Int) (lang country : String) (resp : FetchResponse),
        env.firecrawlKey = true →
        fetch ⟨query, min limit 10, lang, country⟩ = Except.ok resp →
        (resp.ok = false ∨ resp.body.success = false) →
        (searchWithFirecrawl env fetch query limit lang country).1.isSuccess = false ∧
        (searchWithFirecrawl env fetch query limit lang country).1.errorMsg ≠ "")
  ∧ (∀ (env : Env) (w : World) (body : Json) (msgs : List Json)
       (completion : Completion) (message : AssistantMsg) (tc : ToolCall) (s : String)
       (args : Json) (resp : FetchResponse) (c2 : Completion),
        w.parseBody = .ok body →
        body.getField "messages" = some (Json.arr msgs) →
        env.openaiKey = true →
        w.firstCompletion = .ok completion →
        completion.firstMessage = some message →
        message.tool_calls = [tc] →
        tc.name = "search_web" →
        tc.arguments = some s → s ≠ "" →
        w.parseJson s = some args →
        w.fetchSearch ⟨jsStrQuery (args.getField "query"),
          min (jsOrNum (args.getField "limit") 5) 10,
          jsStrField (args.getField "lang") "en",
          jsStrField (args.getField "country") "us"⟩ = Except.ok resp →
        resp.ok = false →
        w.secondCompletion = .ok c2 →
        (POST env w).1.status = 200) := by
  constructor
  · intro env fetch query limit lang country resp hkey hf hfail
    unfold searchWithFirecrawl
    rw [hkey]
    simp only [Bool.true_eq_false, if_false]
    rw [hf]
    dsimp only
    by_cases hok : resp.ok = false
    · rw [if_pos hok]
      exact ⟨rfl, firecrawlApiError_ne_empty _ _⟩
    · rw [if_neg hok]
      rcases hfail with hfail | hsucc
      · exact absurd hfail hok
      · cases hd : resp.body.data with
        | none =>
          exact ⟨rfl, (by decide : ("Firecrawl search returned no results" : String) ≠ "")⟩
        | some rs =>
          dsimp only
          rw [if_neg (fun hcond => by rw [hsucc] at hcond; exact Bool.noConfusion hcond.1)]
          exact ⟨rfl, (by decide : ("Firecrawl search returned no results" : String) ≠ "")⟩
  · intro env w body msgs completion message tc s args resp c2
      h1 h2 h3 h4 h5 h6 hname hargs hs hp hfetch hok hsc
    have hst := POST_tool_status env w body msgs completion message c2 h1 h2 h3 h4 h5
      (by rw [h6]; exact List.cons_ne_nil _ _) hsc
    rw [hst]

/-- C4 witness: a 500 from the retrieval service yields a failure-tagged
result with a nonempty error, and the relay's turn still ends in a 200. -/
theorem C4_witness :
    ((searchWithFirecrawl env_ok fetchBad "q" 5 "en" "us").1.isSuccess = false ∧
     (searchWithFirecrawl env_ok fetchBad "q" 5 "en" "us").1.errorMsg ≠ "") ∧
    (POST env_ok w_bad).1.status = 200 := by
  constructor
  · exact C4_retrieval_failure_handled.1 env_ok fetchBad "q" 5 "en" "us" badResp
      rfl rfl (Or.inl rfl)
  · exact C4_retrieval_failure_handled.2 env_ok w_bad bodyMsgs histMsgs (compOf [tc25])
      ⟨none, [tc25]⟩ tc25 "payload25" args25 badResp comp2
      rfl rfl rfl rfl rfl rfl rfl rfl (by decide) rfl rfl rfl rfl

/-- C5: a tool call whose argument payload is missing or fails JSON parsing
is downgraded to an error-content tool message tagged with its own call
identifier, issues no retrieval call, and the turn still ends in a 200 —
the parse failure never aborts the HTTP request. -/
theorem C5_parse_failure_isolated (env : Env) (w : World) (body : Json) (msgs : List Json)
    (completion : Completion) (message : AssistantMsg) (tc : ToolCall) (c2 : Completion)
    (h1 : w.parseBody = .ok body)
    (h2 : body.getField "messages" = some (Json.arr msgs))
    (h3 : env.openaiKey = true)
    (h4 : w.firstCompletion = .ok completion)
    (h5 : completion.firstMessage = some message)
    (h6 : message.tool_calls = [tc])
    (hbad : tc.arguments = none ∨ ∃ s, tc.arguments = some s ∧ w.parseJson s = none)
    (hsc : w.secondCompletion = .ok c2) :
    ((processOne env w tc).1.content = ToolContent.errMissingArgs ∨
     (processOne env w tc).1.content = ToolContent.errInvalidArgs) ∧
    (processOne env w tc).1.tool_call_id = tc.id ∧
    (processOne env w tc).2.1 = [] ∧
    (POST env w).1.status = 200 := by
  have hpo : ((processOne env w tc).1.content = ToolContent.errMissingArgs ∧
       (processOne env w tc).2.1 = []) ∨
      ((processOne env w tc).1.content = ToolContent.errInvalidArgs ∧
       (processOne env w tc).2.1 = []) := by
    rcases hbad with hn | ⟨s, hsome, hp⟩
    · left
      unfold processOne
      rw [hn]
      exact ⟨rfl, rfl⟩
    · by_cases hs : s = ""
      · left
        unfold processOne
        rw [hsome]
        dsimp only
        rw [if_pos hs]
        exact ⟨rfl, rfl⟩
      · right
        unfold processOne
        rw [hsome]
        dsimp only
        rw [if_neg hs, hp]
        exact ⟨rfl, rfl⟩
  have hst := POST_tool_status env w body msgs completion message c2 h1 h2 h3 h4 h5
    (by rw [h6]; exact List.cons_ne_nil _ _) hsc
  refine ⟨hpo.elim (fun h => Or.inl h.1) (fun h => Or.inr h.1),
    processOne_id env w tc,
    hpo.elim (fun h => h.2) (fun h => h.2), ?_⟩
  rw [hst]

/-- C5 witness: a tool call with no argument payload yields an
error-content tool message, no retrieval call, and a 200. -/
theorem C5_witness :
    ((processOne env_ok w_badArgs tcBad).1.content = ToolContent.errMissingArgs ∨
     (processOne env_ok w_badArgs tcBad).1.content = ToolContent.errInvalidArgs) ∧
    (processOne env_ok w_badArgs tcBad).1.tool_call_id = tcBad.id ∧
    (processOne env_ok w_badArgs tcBad).2.1 = [] ∧
    (POST env_ok w_badArgs).1.status = 200 :=
  C5_parse_failure_isolated env_ok w_badArgs bodyMsgs histMsgs (compOf [tcBad])
    ⟨none, [tcBad]⟩ tcBad comp2 rfl rfl rfl rfl rfl rfl (Or.inl rfl) rfl

/-- C6: the `total_tokens` of the 200 response equals the sum of both
completion calls' `total_tokens` when a tool was invoked, and the first
call's `total_tokens` when it was not. -/
theorem C6_total_tokens :
    (∀ (env : Env) (w : World) (body : Json) (msgs : List Json)
       (completion : Completion) (message : AssistantMsg) (c2 : Completion)
       (u1 u2 : Usage) (t1 t2 : Nat),
        w.parseBody = .ok body →
        body.getField "messages" = some (Json.arr msgs) →
        env.openaiKey = true →
        w.firstCompletion = .ok completion →
        completion.firstMessage = some message →
        message.tool_calls ≠ [] →
        w.secondCompletion = .ok c2 →
        completion.usage = some u1 → u1.total_tokens = some t1 →
        c2.usage = some u2 → u2.total_tokens = some t2 →
        (POST env w).1.body.totalTokens = some (t1 + t2))
  ∧ (∀ (env : Env) (w : World) (body : Json) (msgs : List Json)
       (completion : Completion) (message : AssistantMsg) (u1 : Usage) (t1 : Nat),
        w.parseBody = .ok body →
        body.getField "messages" = some (Json.arr msgs) →
        env.openaiKey = true →
        w.firstCompletion = .ok completion →
        completion.firstMessage = some message →
        message.tool_calls = [] →
        completion.usage = some u1 → u1.total_tokens = some t1 →
        (POST env w).1.body.totalTokens = some t1) := by
  constructor
  · intro env w body msgs completion message c2 u1 u2 t1 t2
      h1 h2 h3 h4 h5 h6 hsc hu1 ht1 hu2 ht2
    rw [POST_tool_status env w body msgs completion message c2 h1 h2 h3 h4 h5 h6 hsc]
    simp [ResponseBody.totalTokens, sumUsage, usageField, hu1, ht1, hu2, ht2]
  · intro env w body msgs completion message u1 t1 h1 h2 h3 h4 h5 h0 hu1 ht1
    rw [POST_eq_runChat env w body msgs h1 h2, runChat_eq env w msgs completion message h3 h4 h5]
    unfold handleMessage
    rw [h0]
    simp [ResponseBody.totalTokens, hu1, ht1]

/-- C6 witness: with usage 15 and 27 the tool path reports 42, and the
plain path reports the first call's 15. -/
theorem C6_witness :
    (POST env_ok w25).1.body.totalTokens = some (15 + 27) ∧
    (POST env_ok w_plain).1.body.totalTokens = some 15 := by
  constructor
  · exact C6_total_tokens.1 env_ok w25 bodyMsgs histMsgs (compOf [tc25]) ⟨none, [tc25]⟩
      comp2 usage1 usage2 15 27 rfl rfl rfl rfl rfl (List.cons_ne_nil _ _) rfl rfl rfl rfl rfl
  · exact C6_total_tokens.2 env_ok w_plain bodyMsgs histMsgs compPlain
      ⟨some "plain answer", []⟩ usage1 15 rfl rfl rfl rfl rfl rfl rfl rfl

/-- C8: the second completion request's message list is exactly the
original history, then the model's tool-requesting message, then the
synthesized tool messages, and that request carries no tool declaration. -/
theorem C8_second_request_shape (env : Env) (w : World) (body : Json) (msgs : List Json)
    (completion : Completion) (message : AssistantMsg)
    (h1 : w.parseBody = .ok body)
    (h2 : body.getField "messages" = some (Json.arr msgs))
    (h3 : env.openaiKey = true)
    (h4 : w.firstCompletion = .ok completion)
    (h5 : completion.firstMessage = some message)
    (h6 : message.tool_calls ≠ []) :
    (POST env w).2 =
      NetCall.completion (firstRequest msgs) :: (toolLoop env w message.tool_calls "" 0).calls
        ++ [NetCall.completion
              (secondRequest msgs message (toolLoop env w message.tool_calls "" 0).toolResults)] ∧
    (secondRequest msgs message (toolLoop env w message.tool_calls "" 0).toolResults).messages
      = msgs.map Msg.given ++ [Msg.assistant message]
        ++ (toolLoop env w message.tool_calls "" 0).toolResults.map
            (fun t => Msg.tool t.content t.tool_call_id) ∧
    (secondRequest msgs message (toolLoop env w message.tool_calls "" 0).toolResults).toolsOffered
      = false :=
  ⟨POST_tool_trace env w body msgs completion message h1 h2 h3 h4 h5 h6, rfl, rfl⟩

/-- C8 witness: the unknown-tool world's second request appends history,
model message and tool message, with tools not re-offered. -/
theorem C8_witness :
    (POST env_ok w_unk).2 =
      NetCall.completion (firstRequest histMsgs) :: (toolLoop env_ok w_unk [tcUnk] "" 0).calls
        ++ [NetCall.completion
              (secondRequest histMsgs ⟨none, [tcUnk]⟩
                (toolLoop env_ok w_unk [tcUnk] "" 0).toolResults)] ∧
    (secondRequest histMsgs ⟨none, [tcUnk]⟩
        (toolLoop env_ok w_unk [tcUnk] "" 0).toolResults).messages
      = histMsgs.map Msg.given ++ [Msg.assistant ⟨none, [tcUnk]⟩]
        ++ (toolLoop env_ok w_unk [tcUnk] "" 0).toolResults.map
            (fun t => Msg.tool t.content t.tool_call_id) ∧
    (secondRequest histMsgs ⟨none, [tcUnk]⟩
        (toolLoop env_ok w_unk [tcUnk] "" 0).toolResults).toolsOffered = false :=
  C8_second_request_shape env_ok w_unk bodyMsgs histMsgs (compOf [tcUnk]) ⟨none, [tcUnk]⟩
    rfl rfl rfl rfl rfl (List.cons_ne_nil _ _)

/-- C9: a tool call with an unrecognized name is answered by an
error-content tool message, with no retrieval invocation at all, and the
turn still proceeds to the final completion call and a 200. -/
theorem C9_unknown_tool (env : Env) (w : World) (body : Json) (msgs : List Json)
    (completion : Completion) (message : AssistantMsg) (tc : ToolCall) (c2 : Completion)
    (h1 : w.parseBody = .ok body)
    (h2 : body.getField "messages" = some (Json.arr msgs))
    (h3 : env.openaiKey = true)
    (h4 : w.firstCompletion = .ok completion)
    (h5 : completion.firstMessage = some message)
    (h6 : message.tool_calls = [tc])
    (hname : tc.name ≠ "search_web")
    (hsc : w.secondCompletion = .ok c2) :
    (processOne env w tc).1.content.isError = true ∧
    (processOne env w tc).2.1 = [] ∧
    (POST env w).2 = [NetCall.completion (firstRequest msgs),
      NetCall.completion (secondRequest msgs message (toolLoop env w [tc] "" 0).toolResults)] ∧
    (POST env w).1.status = 200 := by
  obtain ⟨he, hc⟩ := processOne_not_search env w tc hname
  refine ⟨he, hc, ?_, ?_⟩
  · have ht := POST_tool_trace env w body msgs completion message h1 h2 h3 h4 h5
      (by rw [h6]; exact List.cons_ne_nil _ _)
    rw [h6] at ht
    rw [ht]
    have hcalls : (toolLoop env w [tc] "" 0).calls = [] := by
      simp [toolLoop, hc]
    rw [hcalls]
    rfl
  · have hst := POST_tool_status env w body msgs completion message c2 h1 h2 h3 h4 h5
      (by rw [h6]; exact List.cons_ne_nil _ _) hsc
    rw [hst]

/-- C9 witness: the `other_tool` request yields an error tool message, zero
retrieval calls, exactly two completion calls, and a 200. -/
theorem C9_witness :
    (processOne env_ok w_unk tcUnk).1.content.isError = true ∧
    (processOne env_ok w_unk tcUnk).2.1 = [] ∧
    (POST env_ok w_unk).2 = [NetCall.completion (firstRequest histMsgs),
      NetCall.completion (secondRequest histMsgs ⟨none, [tcUnk]⟩
        (toolLoop env_ok w_unk [tcUnk] "" 0).toolResults)] ∧
    (POST env_ok w_unk).1.status = 200 :=
  C9_unknown_tool env_ok w_unk bodyMsgs histMsgs (compOf [tcUnk]) ⟨none, [tcUnk]⟩ tcUnk comp2
    rfl rfl rfl rfl rfl rfl (by decide) rfl

end FirecrawlAgent
